import Mathlib

/-!
Verification of the nationalparks MCP server (src/build/index.js and
src/build/utils/npsApiClient.js) via a shallow embedding in Lean 4.

Modelling conventions:
- JS strings are Lean `String`; JS numbers supplied as tool arguments are
  modelled as `Int` (JSON carries no NaN/Infinity literals); `parseInt`
  results are `JsNumber` (`int` or `nan`).
- A JS plain object is modelled as an insertion-ordered association list of
  string keys, matching JS property enumeration order for non-index keys.
- `JSON.stringify(v, null, indent)` is represented symbolically by the pair
  (value, indent option) held in a `TextContent`, since the serializer itself
  is a JS builtin, not code of this repository.
- The upstream HTTP gateway is a function parameter
  `QueryParams → Except JsError (NPSResponse _)`; the calls the handler
  issues are returned as an explicit trace (`List GatewayCall`).
- The locale date formatter `new Date(d).toLocaleDateString()` (a JS builtin
  whose output is environment dependent) is a function parameter.
-/

/-- A JS number as produced by `parseInt`: an integer or NaN. -/
inductive JsNumber where
  | int (n : Int)
  | nan
deriving DecidableEq

/-- A JSON-like JS value (including `undefined`, which JS object literals can
hold in a property). Objects are insertion-ordered association lists. -/
inductive JsonValue where
  | str (s : String)
  | num (n : JsNumber)
  | bool (b : Bool)
  | null
  | undef
  | arr (xs : List JsonValue)
  | obj (fields : List (String × JsonValue))

/-- JS property access `v[key]` on an object, `none` when the key is absent or
the value is not an object. -/
def getField (v : JsonValue) (key : String) : Option JsonValue :=
  match v with
  | .obj fields => (fields.find? (fun p => p.1 = key)).map (fun p => p.2)
  | _ => none

/-- Modelled JS `parseInt` restricted to the decimal inputs the upstream
contract produces: skip leading whitespace, optional sign, longest digit
prefix; no digits means NaN. -/
def jsParseInt (s : String) : JsNumber :=
  let cs := s.data.dropWhile (fun c => c.isWhitespace)
  let core := fun (neg : Bool) (rest : List Char) =>
    let ds := rest.takeWhile (fun c => c.isDigit)
    if ds.isEmpty then JsNumber.nan
    else
      let v : Nat := ds.foldl (fun acc c => acc * 10 + (c.toNat - 48)) 0
      JsNumber.int (if neg then -(v : Int) else (v : Int))
  match cs with
  | '-' :: rest => core true rest
  | '+' :: rest => core false rest
  | _ => core false cs

/-- JS `String.split` with a single-character separator, over the char list
(splitting the empty string yields one empty segment, as in JS). -/
def splitCharsOn (sep : Char) : List Char → List (List Char)
  | [] => [[]]
  | c :: cs =>
    if c = sep then [] :: splitCharsOn sep cs
    else
      match splitCharsOn sep cs with
      | [] => [[c]]
      | t :: ts => (c :: t) :: ts

/-- Modelled JS `s.split(sep)` for a one-character separator. -/
def jsSplit (s : String) (sep : Char) : List String :=
  (splitCharsOn sep s.data).map String.mk

/-- Modelled JS `s.trim()`: strip leading and trailing whitespace. -/
def jsTrim (s : String) : String :=
  String.mk (((s.data.dropWhile Char.isWhitespace).reverse.dropWhile Char.isWhitespace).reverse)

/-- Modelled JS `s.toUpperCase()` (ASCII range, which covers state codes). -/
def jsToUpper (s : String) : String :=
  String.mk (s.data.map Char.toUpper)

/-- src/build/index.js lines 49-56: the STATE_CODES list. -/
def STATE_CODES : List String :=
  ["AL", "AK", "AZ", "AR", "CA", "CO", "CT", "DE", "FL", "GA",
   "HI", "ID", "IL", "IN", "IA", "KS", "KY", "LA", "ME", "MD",
   "MA", "MI", "MN", "MS", "MO", "MT", "NE", "NV", "NH", "NJ",
   "NM", "NY", "NC", "ND", "OH", "OK", "OR", "PA", "RI", "SC",
   "SD", "TN", "TX", "UT", "VT", "VA", "WA", "WV", "WI", "WY",
   "DC", "AS", "GU", "MP", "PR", "VI", "UM"]

/-! ### Upstream record shapes (the NPS API response contract) -/

structure ActivityRec where
  name : String

structure FeeRec where
  cost : String
  description : String
  title : String

structure HoursRec where
  name : String
  description : String
  standardHours : List (String × String)

structure PhoneRec where
  type : String
  phoneNumber : String
  extension : String
  description : String

structure EmailRec where
  emailAddress : String
  description : String

structure ContactsRec where
  phoneNumbers : List PhoneRec
  emailAddresses : List EmailRec

structure ImageRec where
  url : String
  title : String
  altText : String
  caption : String
  credit : String

structure AddressRec where
  type : String
  line1 : String
  line2 : String
  city : String
  stateCode : String
  postalCode : String

structure TopicRec where
  name : String

/-- An upstream park record, with the fields the two park mappings read. -/
structure ParkRecord where
  fullName : String
  parkCode : String
  description : String
  states : String
  url : String
  designation : String
  weatherInfo : String
  latitude : String
  longitude : String
  directionsInfo : String
  directionsUrl : String
  activities : List ActivityRec
  entranceFees : List FeeRec
  entrancePasses : List FeeRec
  operatingHours : List HoursRec
  contacts : ContactsRec
  images : List ImageRec
  addresses : List AddressRec
  topics : List TopicRec

/-- An upstream alert record. An absent/empty `lastIndexedDate` is the empty
string (both are falsy in JS). -/
structure AlertRecord where
  title : String
  description : String
  parkCode : String
  category : String
  url : String
  lastIndexedDate : String

/-! ### Response Normalizer (src/build/index.js lines 61-211) -/

/-- src/build/index.js lines 62-103: the per-park body of `formatParkData`. -/
def formatParkSummary (park : ParkRecord) : JsonValue :=
  .obj
    [("name", .str park.fullName),
     ("code", .str park.parkCode),
     ("description", .str park.description),
     ("states", .arr (((jsSplit park.states ',').map (fun code => jsTrim code)).map .str)),
     ("url", .str park.url),
     ("designation", .str park.designation),
     ("activities", .arr (park.activities.map (fun activity => .str activity.name))),
     ("weatherInfo", .str park.weatherInfo),
     ("location", .obj
        [("latitude", .str park.latitude),
         ("longitude", .str park.longitude)]),
     ("entranceFees", .arr (park.entranceFees.map (fun fee => JsonValue.obj
        [("cost", .str fee.cost),
         ("description", .str fee.description),
         ("title", .str fee.title)]))),
     ("operatingHours", .arr (park.operatingHours.map (fun hours => JsonValue.obj
        [("name", .str hours.name),
         ("description", .str hours.description),
         ("standardHours", .obj (hours.standardHours.map (fun p => (p.1, JsonValue.str p.2))))]))),
     ("contacts", .obj
        [("phoneNumbers", .arr (park.contacts.phoneNumbers.map (fun phone => JsonValue.obj
            [("type", .str phone.type),
             ("number", .str phone.phoneNumber),
             ("description", .str phone.description)]))),
         ("emailAddresses", .arr (park.contacts.emailAddresses.map (fun email => JsonValue.obj
            [("address", .str email.emailAddress),
             ("description", .str email.description)])))]),
     ("images", .arr (park.images.map (fun image => JsonValue.obj
        [("url", .str image.url),
         ("title", .str image.title),
         ("altText", .str image.altText),
         ("caption", .str image.caption),
         ("credit", .str image.credit)])))]

/-- src/build/index.js lines 61-104: `formatParkData`. -/
def formatParkData (parkData : List ParkRecord) : List JsonValue :=
  parkData.map formatParkSummary

/-- JS `day.charAt(0).toUpperCase() + day.slice(1)`. -/
def capitalizeFirst (s : String) : String :=
  match s.data with
  | [] => ""
  | c :: cs => String.mk (c.toUpper :: cs)

/-- src/build/index.js lines 112-125: the formatted standard hours entries,
`properDay: hours-or-Closed` (the empty string is falsy, hence `Closed`). -/
def formatStandardHours (standardHours : List (String × String)) : List String :=
  standardHours.map (fun p =>
    capitalizeFirst p.1 ++ ": " ++ (if p.2 = "" then "Closed" else p.2))

/-- The address object literal of src/build/index.js lines 139-145. -/
def physicalAddressJson (a : AddressRec) : JsonValue :=
  .obj
    [("line1", .str a.line1),
     ("line2", .str a.line2),
     ("city", .str a.city),
     ("stateCode", .str a.stateCode),
     ("postalCode", .str a.postalCode)]

/-- src/build/index.js line 110:
`park.addresses.find(addr => addr.type === 'Physical') || park.addresses[0]`. -/
def findPhysicalAddress (addresses : List AddressRec) : Option AddressRec :=
  match addresses.find? (fun addr => addr.type = "Physical") with
  | some a => some a
  | none => addresses.head?

/-- src/build/index.js lines 108-180: `formatParkDetails`. -/
def formatParkDetails (park : ParkRecord) : JsonValue :=
  let physicalAddress := findPhysicalAddress park.addresses
  let formattedHours := park.operatingHours.map (fun hours => JsonValue.obj
    [("name", .str hours.name),
     ("description", .str hours.description),
     ("standardHours", .arr ((formatStandardHours hours.standardHours).map .str))])
  .obj
    [("name", .str park.fullName),
     ("code", .str park.parkCode),
     ("url", .str park.url),
     ("description", .str park.description),
     ("designation", .str park.designation),
     ("states", .arr (((jsSplit park.states ',').map (fun code => jsTrim code)).map .str)),
     ("weatherInfo", .str park.weatherInfo),
     ("directionsInfo", .str park.directionsInfo),
     ("directionsUrl", .str park.directionsUrl),
     ("location", .obj
        [("latitude", .str park.latitude),
         ("longitude", .str park.longitude),
         ("address", match physicalAddress with
           | some a => physicalAddressJson a
           | none => JsonValue.undef)]),
     ("contacts", .obj
        [("phoneNumbers", .arr (park.contacts.phoneNumbers.map (fun phone => JsonValue.obj
            [("type", .str phone.type),
             ("number", .str phone.phoneNumber),
             ("extension", .str phone.extension),
             ("description", .str phone.description)]))),
         ("emailAddresses", .arr (park.contacts.emailAddresses.map (fun email => JsonValue.obj
            [("address", .str email.emailAddress),
             ("description", .str email.description)])))]),
     ("entranceFees", .arr (park.entranceFees.map (fun fee => JsonValue.obj
        [("title", .str fee.title),
         ("cost", .str ("$" ++ fee.cost)),
         ("description", .str fee.description)]))),
     ("entrancePasses", .arr (park.entrancePasses.map (fun pass => JsonValue.obj
        [("title", .str pass.title),
         ("cost", .str ("$" ++ pass.cost)),
         ("description", .str pass.description)]))),
     ("operatingHours", .arr formattedHours),
     ("topics", .arr (park.topics.map (fun topic => .str topic.name))),
     ("activities", .arr (park.activities.map (fun activity => .str activity.name))),
     ("images", .arr (park.images.map (fun image => JsonValue.obj
        [("url", .str image.url),
         ("title", .str image.title),
         ("altText", .str image.altText),
         ("caption", .str image.caption),
         ("credit", .str image.credit)])))]

/-- The normalized alert object of src/build/index.js lines 202-209. -/
structure AlertOut where
  title : String
  description : String
  parkCode : String
  type : String
  url : String
  lastUpdated : String

/-- src/build/index.js lines 185-210: the per-alert body of `formatAlertData`.
`toLocaleDateString` stands for `d => new Date(d).toLocaleDateString()`. -/
def formatAlertOne (toLocaleDateString : String → String) (alert : AlertRecord) : AlertOut :=
  let lastUpdated :=
    if alert.lastIndexedDate = "" then "Unknown"
    else toLocaleDateString alert.lastIndexedDate
  let alertType :=
    if alert.category = "Information" then "Information (non-emergency)"
    else if alert.category = "Caution" then "Caution (potential hazard)"
    else if alert.category = "Danger" then "Danger (significant hazard)"
    else if alert.category = "Park Closure" then "Park Closure (area inaccessible)"
    else alert.category
  { title := alert.title
    description := alert.description
    parkCode := alert.parkCode
    type := alertType
    url := alert.url
    lastUpdated := lastUpdated }

/-- src/build/index.js lines 184-211: `formatAlertData`. -/
def formatAlertData (toLocaleDateString : String → String)
    (alertData : List AlertRecord) : List AlertOut :=
  alertData.map (formatAlertOne toLocaleDateString)

/-- The fixed alert-category relabeling dictionary, as the spec words it. -/
def alertTypeDict : List (String × String) :=
  [("Information", "Information (non-emergency)"),
   ("Caution", "Caution (potential hazard)"),
   ("Danger", "Danger (significant hazard)"),
   ("Park Closure", "Park Closure (area inaccessible)")]

/-- Lookup in the spec-side dictionary. -/
def dictLookup (d : List (String × String)) (k : String) : Option String :=
  (d.find? (fun p => p.1 = k)).map (fun p => p.2)

/-! ### Tool Contract Layer (src/build/index.js lines 30-47 and 235-367) -/

/-- Parsed `FindParksSchema` arguments; `none` models an absent optional key
(zod omits absent optional keys from the parsed object). -/
structure FindParksArgs where
  stateCode : Option String := none
  q : Option String := none
  limit : Option Int := none
  start : Option Int := none
  activities : Option String := none

/-- Parsed `GetParkDetailsSchema` arguments. -/
structure GetParkDetailsArgs where
  parkCode : String

/-- Parsed `GetAlertsSchema` arguments. -/
structure GetAlertsArgs where
  parkCode : Option String := none
  limit : Option Int := none
  start : Option Int := none
  q : Option String := none

/-- A thrown JS value as the catch block of lines 344-366 distinguishes it:
a `z.ZodError` (with its `errors` payload), an `Error` (with its message), or
anything else. -/
inductive JsError where
  | zodError (details : JsonValue)
  | error (message : String)
  | other

/-- A single zod issue payload (issue collection simplified to the first
mismatch; no claim inspects the `details` content). -/
def zodIssue (msg : String) : JsError :=
  JsError.zodError (JsonValue.arr [JsonValue.str msg])

/-- Zod parse of one optional string field. -/
def optStringField (fields : List (String × JsonValue)) (key : String) :
    Except JsError (Option String) :=
  match ((fields.find? (fun p => p.1 = key)).map (fun p => p.2) : Option JsonValue) with
  | none => .ok none
  | some (.str s) => .ok (some s)
  | some _ => .error (zodIssue ("Expected string at " ++ key))

/-- Zod parse of one optional number field. -/
def optIntField (fields : List (String × JsonValue)) (key : String) :
    Except JsError (Option Int) :=
  match ((fields.find? (fun p => p.1 = key)).map (fun p => p.2) : Option JsonValue) with
  | none => .ok none
  | some (.num (.int n)) => .ok (some n)
  | some _ => .error (zodIssue ("Expected number at " ++ key))

/-- `FindParksSchema.parse` (src/build/index.js lines 30-36 and 242). -/
def parseFindParksArgs (v : JsonValue) : Except JsError FindParksArgs :=
  match v with
  | .obj fields => do
    let stateCode ← optStringField fields "stateCode"
    let q ← optStringField fields "q"
    let limit ← optIntField fields "limit"
    let start ← optIntField fields "start"
    let activities ← optStringField fields "activities"
    .ok { stateCode := stateCode, q := q, limit := limit, start := start,
          activities := activities }
  | _ => .error (zodIssue "Expected object")

/-- `GetParkDetailsSchema.parse` (src/build/index.js lines 38-40 and 283). -/
def parseGetParkDetailsArgs (v : JsonValue) : Except JsError GetParkDetailsArgs :=
  match v with
  | .obj fields =>
    match ((fields.find? (fun p => p.1 = "parkCode")).map (fun p => p.2) : Option JsonValue) with
    | some (.str s) => .ok { parkCode := s }
    | some _ => .error (zodIssue "Expected string at parkCode")
    | none => .error (zodIssue "Required at parkCode")
  | _ => .error (zodIssue "Expected object")

/-- `GetAlertsSchema.parse` (src/build/index.js lines 42-47 and 307). -/
def parseGetAlertsArgs (v : JsonValue) : Except JsError GetAlertsArgs :=
  match v with
  | .obj fields => do
    let parkCode ← optStringField fields "parkCode"
    let limit ← optIntField fields "limit"
    let start ← optIntField fields "start"
    let q ← optStringField fields "q"
    .ok { parkCode := parkCode, limit := limit, start := start, q := q }
  | _ => .error (zodIssue "Expected object")

/-- The axios query-parameter object handed to the Upstream Data Gateway;
absent keys are `none`. -/
structure QueryParams where
  limit : Option Int := none
  start : Option Int := none
  stateCode : Option String := none
  q : Option String := none
  activities : Option String := none
  parkCode : Option String := none
deriving DecidableEq

/-- Upstream response shape `{total, limit, start, data}`; `data := none`
models a response body whose data array is missing. -/
structure NPSResponse (α : Type) where
  total : String
  limit : String
  start : String
  data : Option (List α)

/-- One HTTP call issued to the Upstream Data Gateway, recorded as a trace
entry: `GET /parks` or `GET /alerts` with its query parameters. -/
inductive GatewayCall where
  | parks (params : QueryParams)
  | alerts (params : QueryParams)
deriving DecidableEq

/-- A content block of the tool response. The source stores
`JSON.stringify(val, null, indent)` in its `text` field; the serializer call
is represented symbolically by the (val, indent) pair. -/
structure TextContent where
  type : String
  val : JsonValue
  indent : Option Nat

/-- The normal response returned across the tool boundary. -/
structure ToolResponse where
  content : List TextContent

/-- The `{content: [{type:"text", text: JSON.stringify(v, null, ind)}]}`
response shape every handler branch produces. -/
def textResponse (v : JsonValue) (ind : Option Nat) : ToolResponse :=
  { content := [{ type := "text", val := v, indent := ind }] }

/-- src/build/index.js line 245: `args.stateCode.split(',').map(s => s.trim().toUpperCase())`. -/
def jsUpperTrimSegments (s : String) : List String :=
  (jsSplit s ',').map (fun t => jsToUpper (jsTrim t))

/-- src/build/index.js line 246: the segments not in STATE_CODES. -/
def invalidStatesOf (s : String) : List String :=
  (jsUpperTrimSegments s).filter (fun state => !(STATE_CODES.contains state))

/-- src/build/index.js lines 259-265 (findParks): the parameter object
`{limit, ...args}`. The clamped limit is computed first, but the object
spread runs afterwards, so a `limit` key present in `args` overrides it. -/
def findParksRequestParams (args : FindParksArgs) : QueryParams :=
  let limit : Int :=
    match args.limit with
    | some l => if l ≠ 0 then min l 50 else 10
    | none => 10
  { limit := some (args.limit.getD limit)
    stateCode := args.stateCode
    q := args.q
    start := args.start
    activities := args.activities }

/-- src/build/index.js lines 308-314 (getAlerts): the parameter object
`{limit, ...args}`, with the same spread override as findParks. -/
def getAlertsRequestParams (args : GetAlertsArgs) : QueryParams :=
  let limit : Int :=
    match args.limit with
    | some l => if l ≠ 0 then min l 50 else 10
    | none => 10
  { limit := some (args.limit.getD limit)
    parkCode := args.parkCode
    start := args.start
    q := args.q }

/-- src/build/index.js lines 319-325: group the formatted alerts by park code
into a JS object, modelled as an insertion-ordered association list. -/
def insertAlert (acc : List (String × List AlertOut)) (alert : AlertOut) :
    List (String × List AlertOut) :=
  if acc.any (fun p => p.1 = alert.parkCode) then
    acc.map (fun p => if p.1 = alert.parkCode then (p.1, p.2 ++ [alert]) else p)
  else acc ++ [(alert.parkCode, [alert])]

/-- The `alertsByPark` accumulation (`formattedAlerts.forEach(...)`). -/
def groupAlerts (alerts : List AlertOut) : List (String × List AlertOut) :=
  alerts.foldl insertAlert []

/-- The normalized alert as the object literal embedded in the result. -/
def alertOutToJson (a : AlertOut) : JsonValue :=
  .obj
    [("title", .str a.title),
     ("description", .str a.description),
     ("parkCode", .str a.parkCode),
     ("type", .str a.type),
     ("url", .str a.url),
     ("lastUpdated", .str a.lastUpdated)]

/-- src/build/index.js lines 241-281: the findParks branch. Returns the
outcome and the trace of gateway calls issued. -/
def findParksHandler (parksHttp : QueryParams → Except JsError (NPSResponse ParkRecord))
    (args : FindParksArgs) : Except JsError ToolResponse × List GatewayCall :=
  let proceed : Except JsError ToolResponse × List GatewayCall :=
    let requestParams := findParksRequestParams args
    match parksHttp requestParams with
    | .error e => (.error e, [GatewayCall.parks requestParams])
    | .ok response =>
      match response.data with
      | none =>
        (.error (.error "Cannot read properties of undefined (reading 'map')"),
         [GatewayCall.parks requestParams])
      | some d =>
        let result := JsonValue.obj
          [("total", .num (jsParseInt response.total)),
           ("limit", .num (jsParseInt response.limit)),
           ("start", .num (jsParseInt response.start)),
           ("parks", .arr (formatParkData d))]
        (.ok (textResponse result (some 2)), [GatewayCall.parks requestParams])
  match args.stateCode with
  | none => proceed
  | some s =>
    if s = "" then proceed
    else
      let invalidStates := invalidStatesOf s
      if 0 < invalidStates.length then
        (.ok (textResponse (JsonValue.obj
          [("error", .str ("Invalid state code(s): " ++ String.intercalate ", " invalidStates)),
           ("validStateCodes", .arr (STATE_CODES.map JsonValue.str))]) none), [])
      else proceed

/-- src/build/index.js lines 282-305 with
src/build/utils/npsApiClient.js lines 74-88: the getParkDetails branch; the
client always sends `{parkCode, limit: 1}`. -/
def getParkDetailsHandler (parksHttp : QueryParams → Except JsError (NPSResponse ParkRecord))
    (args : GetParkDetailsArgs) : Except JsError ToolResponse × List GatewayCall :=
  let params : QueryParams := { parkCode := some args.parkCode, limit := some 1 }
  match parksHttp params with
  | .error e => (.error e, [GatewayCall.parks params])
  | .ok response =>
    let notFound : ToolResponse := textResponse (JsonValue.obj
      [("error", .str "Park not found"),
       ("message", .str ("No park found with park code: " ++ args.parkCode))]) (some 2)
    match response.data with
    | none => (.ok notFound, [GatewayCall.parks params])
    | some [] => (.ok notFound, [GatewayCall.parks params])
    | some (first :: _) =>
      (.ok (textResponse (formatParkDetails first) (some 2)), [GatewayCall.parks params])

/-- src/build/index.js lines 306-339: the getAlerts branch. -/
def getAlertsHandler (alertsHttp : QueryParams → Except JsError (NPSResponse AlertRecord))
    (toLocaleDateString : String → String)
    (args : GetAlertsArgs) : Except JsError ToolResponse × List GatewayCall :=
  let requestParams := getAlertsRequestParams args
  match alertsHttp requestParams with
  | .error e => (.error e, [GatewayCall.alerts requestParams])
  | .ok response =>
    match response.data with
    | none =>
      (.error (.error "Cannot read properties of undefined (reading 'map')"),
       [GatewayCall.alerts requestParams])
    | some d =>
      let formattedAlerts := formatAlertData toLocaleDateString d
      let alertsByPark := groupAlerts formattedAlerts
      let result := JsonValue.obj
        [("total", .num (jsParseInt response.total)),
         ("limit", .num (jsParseInt response.limit)),
         ("start", .num (jsParseInt response.start)),
         ("alerts", .arr (formattedAlerts.map alertOutToJson)),
         ("alertsByPark", .obj (alertsByPark.map (fun p =>
            (p.1, JsonValue.arr (p.2.map alertOutToJson)))))]
      (.ok (textResponse result (some 2)), [GatewayCall.alerts requestParams])

/-- A tool invocation request `{name, arguments}`. -/
structure CallToolRequest where
  name : String
  arguments : Option JsonValue

/-- The body of the try block (src/build/index.js lines 236-342): argument
check, dispatch by tool name, unknown names throw. -/
def dispatch (parksHttp : QueryParams → Except JsError (NPSResponse ParkRecord))
    (alertsHttp : QueryParams → Except JsError (NPSResponse AlertRecord))
    (toLocaleDateString : String → String)
    (req : CallToolRequest) : Except JsError ToolResponse × List GatewayCall :=
  match req.arguments with
  | none => (.error (.error "Arguments are required"), [])
  | some rawArgs =>
    if req.name = "findParks" then
      match parseFindParksArgs rawArgs with
      | .error e => (.error e, [])
      | .ok args => findParksHandler parksHttp args
    else if req.name = "getParkDetails" then
      match parseGetParkDetailsArgs rawArgs with
      | .error e => (.error e, [])
      | .ok args => getParkDetailsHandler parksHttp args
    else if req.name = "getAlerts" then
      match parseGetAlertsArgs rawArgs with
      | .error e => (.error e, [])
      | .ok args => getAlertsHandler alertsHttp toLocaleDateString args
    else (.error (.error ("Unknown tool: " ++ req.name)), [])

/-- The full CallToolRequest handler (src/build/index.js lines 235-367),
including the catch block that converts every thrown value into a normal
response carrying an error payload. -/
def handleCallTool (parksHttp : QueryParams → Except JsError (NPSResponse ParkRecord))
    (alertsHttp : QueryParams → Except JsError (NPSResponse AlertRecord))
    (toLocaleDateString : String → String)
    (req : CallToolRequest) : ToolResponse × List GatewayCall :=
  match dispatch parksHttp alertsHttp toLocaleDateString req with
  | (.ok resp, calls) => (resp, calls)
  | (.error (.zodError details), calls) =>
    (textResponse (JsonValue.obj
      [("error", .str "Validation error"), ("details", details)]) (some 2), calls)
  | (.error (.error msg), calls) =>
    (textResponse (JsonValue.obj
      [("error", .str "Server error"), ("message", .str msg)]) (some 2), calls)
  | (.error .other, calls) =>
    (textResponse (JsonValue.obj
      [("error", .str "Server error"), ("message", .str "Unknown error")]) (some 2), calls)

/-! ### Concrete stubs used by witnesses and counterexamples -/

/-- A parks gateway stub answering every query with an empty result set. -/
def stubParksHttp : QueryParams → Except JsError (NPSResponse ParkRecord) :=
  fun _ => .ok { total := "0", limit := "10", start := "0", data := some [] }

/-- An alerts gateway stub answering every query with an empty result set. -/
def stubAlertsHttp : QueryParams → Except JsError (NPSResponse AlertRecord) :=
  fun _ => .ok { total := "0", limit := "10", start := "0", data := some [] }

/-- A compact alert record for concrete scenarios. -/
def sampleAlert (code title : String) : AlertRecord :=
  { title := title, description := "d", parkCode := code, category := "Caution",
    url := "u", lastIndexedDate := "" }

/-- The grouping scenario of the spec: 3 alerts for `yose`, 2 for `grca`,
interleaved. -/
def sampleAlertList : List AlertRecord :=
  [sampleAlert "yose" "a1", sampleAlert "yose" "a2", sampleAlert "grca" "b1",
   sampleAlert "yose" "a3", sampleAlert "grca" "b2"]

/-- An alerts gateway stub answering with the grouping scenario data. -/
def stubAlertsYose : QueryParams → Except JsError (NPSResponse AlertRecord) :=
  fun _ => .ok { total := "5", limit := "10", start := "0", data := some sampleAlertList }

/-- A parks gateway stub echoing numeric strings, with one park record. -/
def samplePark : ParkRecord :=
  { fullName := "Yosemite National Park", parkCode := "yose",
    description := "desc", states := "CA", url := "https://example",
    designation := "National Park", weatherInfo := "w", latitude := "37.8",
    longitude := "-119.5", directionsInfo := "di", directionsUrl := "du",
    activities := [{ name := "Hiking" }], entranceFees := [], entrancePasses := [],
    operatingHours := [], contacts := { phoneNumbers := [], emailAddresses := [] },
    images := [], addresses := [], topics := [] }

/-- A parks gateway stub returning one park and numeric echoes. -/
def stubParksOne : QueryParams → Except JsError (NPSResponse ParkRecord) :=
  fun _ => .ok { total := "42", limit := "5", start := "0", data := some [samplePark] }

/-! ### Theorems -/

/-- The location.address field of the detail mapping, as a function of the
physical-address selection. -/
theorem formatParkDetails_location_address (park : ParkRecord) :
    (getField (formatParkDetails park) "location").bind (fun loc => getField loc "address") =
      some (match findPhysicalAddress park.addresses with
            | some a => physicalAddressJson a
            | none => JsonValue.undef) := rfl

/-- Claim C1: the code forwards the caller's raw limit of 100 (> 50) to the
Upstream Data Gateway — the object spread `{limit, ...args}` restores the
caller's `limit` key over the just-clamped value, contradicting the clamp
the claim (and the source's own comment) states. -/
theorem C1_limit_forwarded_unclamped :
    (handleCallTool stubParksHttp stubAlertsHttp id
      { name := "findParks",
        arguments := some (JsonValue.obj [("limit", JsonValue.num (JsNumber.int 100))]) }).2 =
      [GatewayCall.parks { limit := some 100 }] ∧ (100 : Int) ≠ 50 :=
  ⟨rfl, by decide⟩

/-- Claim C2 counterexample: for stateCode = "", the split/trim/upper segment
list is [""], whose single segment is outside the valid set, yet the handler
skips validation (the empty string is falsy in JS) and calls the gateway, so
the claimed "no call to the Upstream Data Gateway" is false. -/
theorem C2_counterexample_empty_stateCode :
    jsUpperTrimSegments "" = [""] ∧
    STATE_CODES.contains "" = false ∧
    (handleCallTool stubParksHttp stubAlertsHttp id
      { name := "findParks",
        arguments := some (JsonValue.obj [("stateCode", JsonValue.str "")]) }).2 =
      [GatewayCall.parks { limit := some 10, stateCode := some "" }] :=
  ⟨rfl, rfl, rfl⟩

/-- Claim C2 (amended): for every findParks invocation whose stateCode is
present and non-empty and whose split/trim/upper segments contain one outside
the code's 57-entry STATE_CODES set, the result is an ErrorEnvelope listing
exactly the invalid segments together with the full valid set, serialized
without indent, and no gateway call is made. -/
theorem C2_amended_invalid_stateCode
    (parksHttp : QueryParams → Except JsError (NPSResponse ParkRecord))
    (alertsHttp : QueryParams → Except JsError (NPSResponse AlertRecord))
    (toLocaleDateString : String → String)
    (raw : JsonValue) (args : FindParksArgs) (s : String)
    (hparse : parseFindParksArgs raw = .ok args)
    (hs : args.stateCode = some s) (hne : s ≠ "")
    (hinv : invalidStatesOf s ≠ []) :
    handleCallTool parksHttp alertsHttp toLocaleDateString
      { name := "findParks", arguments := some raw } =
      (textResponse (JsonValue.obj
        [("error", JsonValue.str ("Invalid state code(s): " ++
            String.intercalate ", " (invalidStatesOf s))),
         ("validStateCodes", JsonValue.arr (STATE_CODES.map JsonValue.str))]) none,
       []) := by
  have hlen : 0 < (invalidStatesOf s).length := List.length_pos.mpr hinv
  simp [handleCallTool, dispatch, hparse, findParksHandler, hs, hne, hlen]

/-- Claim C2 witness: the amended theorem evaluated at stateCode "XX". -/
theorem C2_witness :
    handleCallTool stubParksHttp stubAlertsHttp id
      { name := "findParks", arguments := some (JsonValue.obj [("stateCode", JsonValue.str "XX")]) } =
      (textResponse (JsonValue.obj
        [("error", JsonValue.str ("Invalid state code(s): " ++
            String.intercalate ", " (invalidStatesOf "XX"))),
         ("validStateCodes", JsonValue.arr (STATE_CODES.map JsonValue.str))]) none,
       []) :=
  C2_amended_invalid_stateCode stubParksHttp stubAlertsHttp id _
    { stateCode := some "XX" } "XX" rfl rfl (by decide) (by decide)

/-- Claim C5: both the summary mapping and the detail mapping produce a
states field equal to the comma-split, trimmed tokens of the record's raw
states string, in original order. -/
theorem C5_states_split_trim (parks : List ParkRecord) (park : ParkRecord) :
    (formatParkData parks).map (fun v => getField v "states") =
      parks.map (fun p => some (JsonValue.arr
        (((jsSplit p.states ',').map jsTrim).map JsonValue.str))) ∧
    getField (formatParkDetails park) "states" =
      some (JsonValue.arr (((jsSplit park.states ',').map jsTrim).map JsonValue.str)) := by
  constructor
  · rw [formatParkData, List.map_map]
    apply List.map_congr_left
    intro p _
    rfl
  · rfl

/-- Claim C6: the normalizer maps the alert category through the fixed
four-entry dictionary, and every other category string appears in the output
type field unchanged. -/
theorem C6_alert_category_dictionary (toLocaleDateString : String → String)
    (alerts : List AlertRecord) :
    (formatAlertData toLocaleDateString alerts).map (fun a => a.type) =
      alerts.map (fun alert => (dictLookup alertTypeDict alert.category).getD alert.category) := by
  rw [formatAlertData, List.map_map]
  apply List.map_congr_left
  intro a _
  show (formatAlertOne toLocaleDateString a).type = _
  by_cases h1 : a.category = "Information"
  · simp [formatAlertOne, dictLookup, alertTypeDict, h1]
  by_cases h2 : a.category = "Caution"
  · simp [formatAlertOne, dictLookup, alertTypeDict, h1, h2]
  by_cases h3 : a.category = "Danger"
  · simp [formatAlertOne, dictLookup, alertTypeDict, h1, h2, h3]
  by_cases h4 : a.category = "Park Closure"
  · simp [formatAlertOne, dictLookup, alertTypeDict, h1, h2, h3, h4]
  · simp [formatAlertOne, dictLookup, alertTypeDict, h1, h2, h3, h4,
      Ne.symm h1, Ne.symm h2, Ne.symm h3, Ne.symm h4]

/-- Claim C9: location.address is built from the first address tagged
Physical if one exists, otherwise from the first address; with an empty
address list it is undefined and the (total) mapping still succeeds. -/
theorem C9_physical_address (park : ParkRecord) :
    (∀ a, park.addresses.find? (fun addr => addr.type = "Physical") = some a →
      (getField (formatParkDetails park) "location").bind (fun loc => getField loc "address") =
        some (physicalAddressJson a)) ∧
    (park.addresses.find? (fun addr => addr.type = "Physical") = none →
      ∀ a0 rest, park.addresses = a0 :: rest →
      (getField (formatParkDetails park) "location").bind (fun loc => getField loc "address") =
        some (physicalAddressJson a0)) ∧
    (park.addresses = [] →
      (getField (formatParkDetails park) "location").bind (fun loc => getField loc "address") =
        some JsonValue.undef) := by
  refine ⟨?_, ?_, ?_⟩
  · intro a h
    rw [formatParkDetails_location_address]
    simp [findPhysicalAddress, h]
  · intro h a0 rest hl
    rw [formatParkDetails_location_address, hl]
    rw [hl] at h
    simp [findPhysicalAddress, h]
  · intro h
    rw [formatParkDetails_location_address]
    simp [findPhysicalAddress, h]

/-- Claim C9 witness: a record with no addresses still maps, with an
undefined location.address. -/
theorem C9_witness :
    (getField (formatParkDetails samplePark) "location").bind (fun loc => getField loc "address") =
      some JsonValue.undef :=
  (C9_physical_address samplePark).2.2 rfl

/-- Claim C10: the two list normalizers are positionwise maps — same length,
the element at each position derived solely from the input element at that
position. -/
theorem C10_normalizers_positionwise (parks : List ParkRecord)
    (toLocaleDateString : String → String) (alerts : List AlertRecord) :
    (formatParkData parks).length = parks.length ∧
    (formatAlertData toLocaleDateString alerts).length = alerts.length ∧
    (∀ i : Nat, (formatParkData parks)[i]? = (parks[i]?).map formatParkSummary) ∧
    (∀ i : Nat, (formatAlertData toLocaleDateString alerts)[i]? =
      (alerts[i]?).map (formatAlertOne toLocaleDateString)) := by
  refine ⟨by simp [formatParkData], by simp [formatAlertData], ?_, ?_⟩ <;>
    intro i <;> simp [formatParkData, formatAlertData]

/-- The trace of gateway calls survives the catch block unchanged. -/
theorem handleCallTool_snd
    (parksHttp : QueryParams → Except JsError (NPSResponse ParkRecord))
    (alertsHttp : QueryParams → Except JsError (NPSResponse AlertRecord))
    (toLocaleDateString : String → String) (req : CallToolRequest) :
    (handleCallTool parksHttp alertsHttp toLocaleDateString req).2 =
      (dispatch parksHttp alertsHttp toLocaleDateString req).2 := by
  unfold handleCallTool
  split <;> simp_all

/-- Claim C3: getParkDetails always calls the gateway with the given parkCode
and limit 1; a missing or empty data array yields the "Park not found"
ErrorEnvelope whose message contains the requested code, without throwing; a
non-empty result yields exactly the first record through the detail mapping,
with no total/limit/start wrapper. -/
theorem C3_getParkDetails
    (parksHttp : QueryParams → Except JsError (NPSResponse ParkRecord))
    (alertsHttp : QueryParams → Except JsError (NPSResponse AlertRecord))
    (toLocaleDateString : String → String)
    (raw : JsonValue) (args : GetParkDetailsArgs)
    (hparse : parseGetParkDetailsArgs raw = .ok args) :
    (handleCallTool parksHttp alertsHttp toLocaleDateString
        { name := "getParkDetails", arguments := some raw }).2 =
      [GatewayCall.parks { parkCode := some args.parkCode, limit := some 1 }] ∧
    (∀ resp, parksHttp { parkCode := some args.parkCode, limit := some 1 } = .ok resp →
      (resp.data = none ∨ resp.data = some []) →
      (handleCallTool parksHttp alertsHttp toLocaleDateString
          { name := "getParkDetails", arguments := some raw }).1 =
        textResponse (JsonValue.obj
          [("error", JsonValue.str "Park not found"),
           ("message", JsonValue.str ("No park found with park code: " ++ args.parkCode))])
          (some 2)) ∧
    (∀ resp first rest, parksHttp { parkCode := some args.parkCode, limit := some 1 } = .ok resp →
      resp.data = some (first :: rest) →
      (handleCallTool parksHttp alertsHttp toLocaleDateString
          { name := "getParkDetails", arguments := some raw }).1 =
        textResponse (formatParkDetails first) (some 2)) := by
  have hdis : dispatch parksHttp alertsHttp toLocaleDateString
      { name := "getParkDetails", arguments := some raw } =
      getParkDetailsHandler parksHttp args := by
    simp [dispatch, hparse]
  refine ⟨?_, ?_, ?_⟩
  · rw [handleCallTool_snd, hdis]
    unfold getParkDetailsHandler
    dsimp only
    split <;> (try split) <;> rfl
  · intro resp hh hdata
    have hh2 : getParkDetailsHandler parksHttp args =
        (.ok (textResponse (JsonValue.obj
          [("error", JsonValue.str "Park not found"),
           ("message", JsonValue.str ("No park found with park code: " ++ args.parkCode))])
          (some 2)),
         [GatewayCall.parks { parkCode := some args.parkCode, limit := some 1 }]) := by
      rcases hdata with h | h <;> simp [getParkDetailsHandler, hh, h]
    simp [handleCallTool, hdis, hh2]
  · intro resp first rest hh hdata
    have hh2 : getParkDetailsHandler parksHttp args =
        (.ok (textResponse (formatParkDetails first) (some 2)),
         [GatewayCall.parks { parkCode := some args.parkCode, limit := some 1 }]) := by
      simp [getParkDetailsHandler, hh, hdata]
    simp [handleCallTool, hdis, hh2]

/-- Claim C3 witness: the not-found branch evaluated on a stub returning an
empty result set for park code "zzzz". -/
theorem C3_witness :
    (handleCallTool stubParksHttp stubAlertsHttp id
        { name := "getParkDetails",
          arguments := some (JsonValue.obj [("parkCode", JsonValue.str "zzzz")]) }).1 =
      textResponse (JsonValue.obj
        [("error", JsonValue.str "Park not found"),
         ("message", JsonValue.str ("No park found with park code: " ++ "zzzz"))]) (some 2) :=
  (C3_getParkDetails stubParksHttp stubAlertsHttp id
      (JsonValue.obj [("parkCode", JsonValue.str "zzzz")]) { parkCode := "zzzz" } rfl).2.1
    { total := "0", limit := "10", start := "0", data := some [] } rfl (Or.inr rfl)

/-- The distinct codes of a list in order of first occurrence, relative to a
list of codes already seen. This is the spec's wording of the key order of
`alertsByPark`. -/
def firstOccurrenceOrder (seen : List String) : List String → List String
  | [] => []
  | c :: cs =>
    if seen.any (fun d => d = c) then firstOccurrenceOrder seen cs
    else c :: firstOccurrenceOrder (seen ++ [c]) cs

/-- Membership among the grouping keys is membership test on the codes. -/
theorem any_fst_map (acc : List (String × List AlertOut)) (c : String) :
    (acc.map Prod.fst).any (fun d => d = c) = acc.any (fun p => p.1 = c) := by
  induction acc with
  | nil => rfl
  | cons p acc ih => simp [List.any_cons, ih]

/-- Inserting an alert whose code is already a key leaves the keys unchanged. -/
theorem insertAlert_fst_mem (acc : List (String × List AlertOut)) (a : AlertOut)
    (h : acc.any (fun p => p.1 = a.parkCode) = true) :
    (insertAlert acc a).map Prod.fst = acc.map Prod.fst := by
  simp only [insertAlert, h, if_true]
  rw [List.map_map]
  apply List.map_congr_left
  intro p _
  by_cases hp : p.1 = a.parkCode <;> simp [hp]

/-- Inserting an alert with a fresh code appends its code to the keys. -/
theorem insertAlert_fst_new (acc : List (String × List AlertOut)) (a : AlertOut)
    (h : acc.any (fun p => p.1 = a.parkCode) = false) :
    (insertAlert acc a).map Prod.fst = acc.map Prod.fst ++ [a.parkCode] := by
  simp [insertAlert, h]

/-- Keys of the grouping fold: the already-present keys followed by the new
codes in first-occurrence order. -/
theorem groupAlerts_keys_aux (l : List AlertOut) :
    ∀ acc : List (String × List AlertOut),
      (l.foldl insertAlert acc).map Prod.fst =
        acc.map Prod.fst ++
          firstOccurrenceOrder (acc.map Prod.fst) (l.map (fun a => a.parkCode)) := by
  induction l with
  | nil => intro acc; simp [firstOccurrenceOrder]
  | cons a l ih =>
    intro acc
    rw [List.foldl_cons, List.map_cons, firstOccurrenceOrder, any_fst_map]
    cases h : acc.any (fun p => p.1 = a.parkCode) with
    | true =>
      rw [if_pos rfl, ih (insertAlert acc a), insertAlert_fst_mem acc a h]
    | false =>
      rw [if_neg (by simp), ih (insertAlert acc a), insertAlert_fst_new acc a h,
        List.append_assoc]
      rfl

/-- Claim C7 key-order fact specialized to the empty accumulator. -/
theorem groupAlerts_keys (l : List AlertOut) :
    (groupAlerts l).map Prod.fst = firstOccurrenceOrder [] (l.map (fun a => a.parkCode)) := by
  rw [groupAlerts, groupAlerts_keys_aux l []]
  rfl

/-- Updating the entry of key k (appending one alert) changes only that
key's list in a grouping lookup. -/
theorem find_upd (acc : List (String × List AlertOut)) (k : String) (al : AlertOut) (c : String) :
    ((acc.map (fun p => if p.1 = k then (p.1, p.2 ++ [al]) else p)).find?
        (fun p => p.1 = c)).map (fun p => p.2) =
      ((acc.find? (fun p => p.1 = c)).map (fun p => p.2)).map
        (fun xs => if c = k then xs ++ [al] else xs) := by
  induction acc with
  | nil => rfl
  | cons p acc ih =>
    rw [List.map_cons]
    by_cases hpc : p.1 = c
    · have hq : ((if p.1 = k then (p.1, p.2 ++ [al]) else p) : String × List AlertOut).1 = p.1 := by
        by_cases hpk : p.1 = k <;> simp [hpk]
      rw [List.find?_cons_of_pos _ (by simp only [hq]; simp [hpc]),
        List.find?_cons_of_pos _ (by simp [hpc])]
      by_cases hpk : p.1 = k
      · have hck : c = k := hpc.symm.trans hpk
        simp [hpk, hck]
      · have hck : ¬ (c = k) := fun hh => hpk (hpc.trans hh)
        simp [hpk, hck]
    · have hq : ((if p.1 = k then (p.1, p.2 ++ [al]) else p) : String × List AlertOut).1 = p.1 := by
        by_cases hpk : p.1 = k <;> simp [hpk]
      rw [List.find?_cons_of_neg _ (by simp only [hq]; simp [hpc]),
        List.find?_cons_of_neg _ (by simp [hpc])]
      exact ih

/-- Appending a fresh single-key entry only affects lookups that previously
found nothing. -/
theorem find_append_single (acc : List (String × List AlertOut)) (k : String) (al : AlertOut)
    (c : String) :
    ((acc ++ [(k, [al])]).find? (fun p => p.1 = c)).map (fun p => p.2) =
      (match (acc.find? (fun p => p.1 = c)).map (fun p => p.2) with
       | some xs => some xs
       | none => if c = k then some [al] else none) := by
  induction acc with
  | nil =>
    rw [List.nil_append]
    by_cases h : c = k
    · rw [List.find?_cons_of_pos _ (by simp [h])]
      simp [h]
    · have hkc : ¬ (k = c) := fun hh => h hh.symm
      rw [List.find?_cons_of_neg _ (by simp [hkc])]
      simp [h]
  | cons p acc ih =>
    rw [List.cons_append]
    by_cases hpc : p.1 = c
    · rw [List.find?_cons_of_pos _ (by simp [hpc]), List.find?_cons_of_pos _ (by simp [hpc])]
      rfl
    · rw [List.find?_cons_of_neg _ (by simp [hpc]), List.find?_cons_of_neg _ (by simp [hpc])]
      exact ih

/-- One insertion step of the grouping, seen through a lookup: key c gains
the inserted alert at the end exactly when c is that alert's code, with a
fresh entry created if the key was absent. -/
theorem insertAlert_lookup (acc : List (String × List AlertOut)) (a : AlertOut) (c : String) :
    ((insertAlert acc a).find? (fun p => p.1 = c)).map (fun p => p.2) =
      (if c = a.parkCode then
        some ((((acc.find? (fun p => p.1 = c)).map (fun p => p.2)).getD []) ++ [a])
      else (acc.find? (fun p => p.1 = c)).map (fun p => p.2)) := by
  unfold insertAlert
  cases h : acc.any (fun p => p.1 = a.parkCode) with
  | true =>
    rw [if_pos rfl]
    rw [find_upd acc a.parkCode a c]
    by_cases hck : c = a.parkCode
    · rw [if_pos hck]
      have hsome : (acc.find? (fun p => p.1 = c)).isSome = true := by
        rw [List.find?_isSome]
        rw [List.any_eq_true] at h
        obtain ⟨q, hq, hqk⟩ := h
        refine ⟨q, hq, ?_⟩
        rw [hck]
        exact hqk
      obtain ⟨q, hq⟩ := Option.isSome_iff_exists.mp hsome
      rw [hq]
      simp [hck]
    · rw [if_neg hck]
      cases hfind : acc.find? (fun p => p.1 = c) <;> simp [hfind, hck]
  | false =>
    rw [if_neg (by simp)]
    rw [find_append_single acc a.parkCode a c]
    by_cases hck : c = a.parkCode
    · have hnone : acc.find? (fun p => p.1 = c) = none := by
        rw [List.find?_eq_none]
        intro q hq
        rw [List.any_eq_false] at h
        have h2 := h q hq
        rw [hck]
        exact h2
      rw [hnone, if_pos hck]
      simp [hck]
    · rw [if_neg hck]
      cases hfind : acc.find? (fun p => p.1 = c) <;> simp [hfind, hck]

/-- Lookup through the whole grouping fold: the entry of key c is the
already-present list extended by the alerts of code c, in their original
relative order. -/
theorem groupAlerts_lookup_aux (l : List AlertOut) :
    ∀ (acc : List (String × List AlertOut)) (c : String),
      ((l.foldl insertAlert acc).find? (fun p => p.1 = c)).map (fun p => p.2) =
        (match (acc.find? (fun p => p.1 = c)).map (fun p => p.2) with
         | some xs => some (xs ++ l.filter (fun a => a.parkCode = c))
         | none =>
           if l.any (fun a => a.parkCode = c) then
             some (l.filter (fun a => a.parkCode = c))
           else none) := by
  induction l with
  | nil =>
    intro acc c
    cases hfind : (acc.find? (fun p => p.1 = c)).map (fun p => p.2) <;> simp [hfind]
  | cons a l ih =>
    intro acc c
    rw [List.foldl_cons, ih (insertAlert acc a) c, insertAlert_lookup]
    by_cases hck : c = a.parkCode
    · have hak : (a.parkCode = c) := hck.symm
      rw [if_pos hck]
      cases hfind : (acc.find? (fun p => p.1 = c)).map (fun p => p.2) with
      | none => simp [List.filter_cons, List.any_cons, hak]
      | some xs => simp [List.filter_cons, List.any_cons, hak]
    · have hak : ¬ (a.parkCode = c) := fun hh => hck hh.symm
      rw [if_neg hck]
      cases hfind : (acc.find? (fun p => p.1 = c)).map (fun p => p.2) with
      | none => simp [List.filter_cons, List.any_cons, hak]
      | some xs => simp [List.filter_cons, List.any_cons, hak]

/-- Claim C7 per-key fact specialized to the empty accumulator. -/
theorem groupAlerts_lookup (l : List AlertOut) (c : String) :
    ((groupAlerts l).find? (fun p => p.1 = c)).map (fun p => p.2) =
      (if l.any (fun a => a.parkCode = c) then
        some (l.filter (fun a => a.parkCode = c))
      else none) := by
  rw [groupAlerts, groupAlerts_lookup_aux l [] c]
  rfl

/-- Claim C7: for every getAlerts invocation with successfully parsed
arguments and a well-formed upstream response, the result is
{total, limit, start, alerts, alertsByPark}; the alertsByPark keys are the
park codes in insertion order of first occurrence, and each key maps to
exactly that park's alerts in their original relative order. -/
theorem C7_alerts_grouping
    (parksHttp : QueryParams → Except JsError (NPSResponse ParkRecord))
    (alertsHttp : QueryParams → Except JsError (NPSResponse AlertRecord))
    (toLocaleDateString : String → String)
    (raw : JsonValue) (args : GetAlertsArgs)
    (hparse : parseGetAlertsArgs raw = .ok args)
    (resp : NPSResponse AlertRecord) (records : List AlertRecord)
    (hresp : alertsHttp (getAlertsRequestParams args) = .ok resp)
    (hdata : resp.data = some records) :
    (handleCallTool parksHttp alertsHttp toLocaleDateString
        { name := "getAlerts", arguments := some raw }).1 =
      textResponse (JsonValue.obj
        [("total", JsonValue.num (jsParseInt resp.total)),
         ("limit", JsonValue.num (jsParseInt resp.limit)),
         ("start", JsonValue.num (jsParseInt resp.start)),
         ("alerts", JsonValue.arr
            ((formatAlertData toLocaleDateString records).map alertOutToJson)),
         ("alertsByPark", JsonValue.obj
            ((groupAlerts (formatAlertData toLocaleDateString records)).map (fun p =>
              (p.1, JsonValue.arr (p.2.map alertOutToJson)))))]) (some 2) ∧
    (groupAlerts (formatAlertData toLocaleDateString records)).map Prod.fst =
      firstOccurrenceOrder []
        ((formatAlertData toLocaleDateString records).map (fun a => a.parkCode)) ∧
    (∀ c : String,
      ((groupAlerts (formatAlertData toLocaleDateString records)).find?
          (fun p => p.1 = c)).map (fun p => p.2) =
        (if (formatAlertData toLocaleDateString records).any (fun a => a.parkCode = c) then
          some ((formatAlertData toLocaleDateString records).filter (fun a => a.parkCode = c))
        else none)) := by
  refine ⟨?_, groupAlerts_keys _, fun c => groupAlerts_lookup _ c⟩
  have hdis : dispatch parksHttp alertsHttp toLocaleDateString
      { name := "getAlerts", arguments := some raw } =
      getAlertsHandler alertsHttp toLocaleDateString args := by
    simp [dispatch, hparse]
  have hh2 : getAlertsHandler alertsHttp toLocaleDateString args =
      (.ok (textResponse (JsonValue.obj
        [("total", JsonValue.num (jsParseInt resp.total)),
         ("limit", JsonValue.num (jsParseInt resp.limit)),
         ("start", JsonValue.num (jsParseInt resp.start)),
         ("alerts", JsonValue.arr
            ((formatAlertData toLocaleDateString records).map alertOutToJson)),
         ("alertsByPark", JsonValue.obj
            ((groupAlerts (formatAlertData toLocaleDateString records)).map (fun p =>
              (p.1, JsonValue.arr (p.2.map alertOutToJson)))))]) (some 2)),
       [GatewayCall.alerts (getAlertsRequestParams args)]) := by
    simp [getAlertsHandler, hresp, hdata]
  simp [handleCallTool, hdis, hh2]

/-- Claim C7 witness: the grouping scenario with 3 yose and 2 grca alerts. -/
theorem C7_witness :
    (groupAlerts (formatAlertData id sampleAlertList)).map Prod.fst =
      firstOccurrenceOrder [] ((formatAlertData id sampleAlertList).map (fun a => a.parkCode)) ∧
    (groupAlerts (formatAlertData id sampleAlertList)).map Prod.fst = ["yose", "grca"] ∧
    ((groupAlerts (formatAlertData id sampleAlertList)).find? (fun p => p.1 = "yose")).map
        (fun p => p.2) =
      some ((formatAlertData id sampleAlertList).filter (fun a => a.parkCode = "yose")) := by
  have h := C7_alerts_grouping stubParksHttp stubAlertsYose id (JsonValue.obj [])
    {} rfl { total := "5", limit := "10", start := "0", data := some sampleAlertList }
    sampleAlertList rfl rfl
  refine ⟨h.2.1, ?_, ?_⟩
  · rw [h.2.1]
    rfl
  · rw [h.2.2 "yose"]
    rfl

/-- Claim C8: for every successful findParks or getAlerts invocation whose
upstream echoes are numeric strings, the result's total/limit/start fields
are the parseInt images of those string echoes — number-typed JSON values,
not strings. -/
theorem C8_numeric_coercion
    (parksHttp : QueryParams → Except JsError (NPSResponse ParkRecord))
    (alertsHttp : QueryParams → Except JsError (NPSResponse AlertRecord))
    (toLocaleDateString : String → String) :
    (∀ (raw : JsonValue) (args : FindParksArgs) (resp : NPSResponse ParkRecord)
        (d : List ParkRecord) (t l st : Int),
      parseFindParksArgs raw = .ok args →
      (∀ s, args.stateCode = some s → s = "" ∨ invalidStatesOf s = []) →
      parksHttp (findParksRequestParams args) = .ok resp → resp.data = some d →
      jsParseInt resp.total = .int t → jsParseInt resp.limit = .int l →
      jsParseInt resp.start = .int st →
      (handleCallTool parksHttp alertsHttp toLocaleDateString
          { name := "findParks", arguments := some raw }).1 =
        textResponse (JsonValue.obj
          [("total", JsonValue.num (JsNumber.int t)),
           ("limit", JsonValue.num (JsNumber.int l)),
           ("start", JsonValue.num (JsNumber.int st)),
           ("parks", JsonValue.arr (formatParkData d))]) (some 2)) ∧
    (∀ (raw : JsonValue) (args : GetAlertsArgs) (resp : NPSResponse AlertRecord)
        (d : List AlertRecord) (t l st : Int),
      parseGetAlertsArgs raw = .ok args →
      alertsHttp (getAlertsRequestParams args) = .ok resp → resp.data = some d →
      jsParseInt resp.total = .int t → jsParseInt resp.limit = .int l →
      jsParseInt resp.start = .int st →
      (handleCallTool parksHttp alertsHttp toLocaleDateString
          { name := "getAlerts", arguments := some raw }).1 =
        textResponse (JsonValue.obj
          [("total", JsonValue.num (JsNumber.int t)),
           ("limit", JsonValue.num (JsNumber.int l)),
           ("start", JsonValue.num (JsNumber.int st)),
           ("alerts", JsonValue.arr ((formatAlertData toLocaleDateString d).map alertOutToJson)),
           ("alertsByPark", JsonValue.obj
              ((groupAlerts (formatAlertData toLocaleDateString d)).map (fun p =>
                (p.1, JsonValue.arr (p.2.map alertOutToJson)))))]) (some 2)) := by
  constructor
  · intro raw args resp d t l st hparse hvalid hresp hdata ht hl hst
    have hdis : dispatch parksHttp alertsHttp toLocaleDateString
        { name := "findParks", arguments := some raw } =
        findParksHandler parksHttp args := by
      simp [dispatch, hparse]
    have hproceed : findParksHandler parksHttp args =
        (.ok (textResponse (JsonValue.obj
          [("total", JsonValue.num (JsNumber.int t)),
           ("limit", JsonValue.num (JsNumber.int l)),
           ("start", JsonValue.num (JsNumber.int st)),
           ("parks", JsonValue.arr (formatParkData d))]) (some 2)),
         [GatewayCall.parks (findParksRequestParams args)]) := by
      cases hsc : args.stateCode with
      | none => simp [findParksHandler, hsc, hresp, hdata, ht, hl, hst]
      | some s =>
        rcases hvalid s hsc with he | hinv
        · simp [findParksHandler, hsc, he, hresp, hdata, ht, hl, hst]
        · simp [findParksHandler, hsc, hinv, hresp, hdata, ht, hl, hst]
    simp [handleCallTool, hdis, hproceed]
  · intro raw args resp d t l st hparse hresp hdata ht hl hst
    have hdis : dispatch parksHttp alertsHttp toLocaleDateString
        { name := "getAlerts", arguments := some raw } =
        getAlertsHandler alertsHttp toLocaleDateString args := by
      simp [dispatch, hparse]
    have hh2 : getAlertsHandler alertsHttp toLocaleDateString args =
        (.ok (textResponse (JsonValue.obj
          [("total", JsonValue.num (JsNumber.int t)),
           ("limit", JsonValue.num (JsNumber.int l)),
           ("start", JsonValue.num (JsNumber.int st)),
           ("alerts", JsonValue.arr ((formatAlertData toLocaleDateString d).map alertOutToJson)),
           ("alertsByPark", JsonValue.obj
              ((groupAlerts (formatAlertData toLocaleDateString d)).map (fun p =>
                (p.1, JsonValue.arr (p.2.map alertOutToJson)))))]) (some 2)),
         [GatewayCall.alerts (getAlertsRequestParams args)]) := by
      simp [getAlertsHandler, hresp, hdata, ht, hl, hst]
    simp [handleCallTool, hdis, hh2]

/-- Claim C8 witness: a stub echoing total "42", limit "5", start "0" yields
number fields 42, 5, 0. -/
theorem C8_witness :
    (handleCallTool stubParksOne stubAlertsHttp id
        { name := "findParks", arguments := some (JsonValue.obj []) }).1 =
      textResponse (JsonValue.obj
        [("total", JsonValue.num (JsNumber.int 42)),
         ("limit", JsonValue.num (JsNumber.int 5)),
         ("start", JsonValue.num (JsNumber.int 0)),
         ("parks", JsonValue.arr (formatParkData [samplePark]))]) (some 2) :=
  (C8_numeric_coercion stubParksOne stubAlertsHttp id).1 (JsonValue.obj []) {}
    { total := "42", limit := "5", start := "0", data := some [samplePark] } [samplePark]
    42 5 0 rfl (fun _ hs => nomatch hs) rfl rfl rfl rfl rfl

/-- Every findParks outcome is either a thrown error, a pretty-printed
single text response, or the compact invalid-state-code envelope with no
gateway call. -/
theorem findParksHandler_shape
    (parksHttp : QueryParams → Except JsError (NPSResponse ParkRecord))
    (args : FindParksArgs) :
    (∃ e calls, findParksHandler parksHttp args = (.error e, calls)) ∨
    (∃ v calls, findParksHandler parksHttp args = (.ok (textResponse v (some 2)), calls)) ∨
    (∃ s, findParksHandler parksHttp args = (.ok (textResponse (JsonValue.obj
      [("error", JsonValue.str ("Invalid state code(s): " ++
          String.intercalate ", " (invalidStatesOf s))),
       ("validStateCodes", JsonValue.arr (STATE_CODES.map JsonValue.str))]) none), [])) := by
  unfold findParksHandler
  dsimp only
  repeat' split
  all_goals first
    | exact Or.inl ⟨_, _, rfl⟩
    | exact Or.inr (Or.inl ⟨_, _, rfl⟩)
    | exact Or.inr (Or.inr ⟨_, rfl⟩)

/-- Every getParkDetails outcome is a thrown error or a pretty-printed
single text response. -/
theorem getParkDetailsHandler_shape
    (parksHttp : QueryParams → Except JsError (NPSResponse ParkRecord))
    (args : GetParkDetailsArgs) :
    (∃ e calls, getParkDetailsHandler parksHttp args = (.error e, calls)) ∨
    (∃ v calls, getParkDetailsHandler parksHttp args = (.ok (textResponse v (some 2)), calls)) := by
  unfold getParkDetailsHandler
  dsimp only
  repeat' split
  all_goals first
    | exact Or.inl ⟨_, _, rfl⟩
    | exact Or.inr ⟨_, _, rfl⟩

/-- Every getAlerts outcome is a thrown error or a pretty-printed single
text response. -/
theorem getAlertsHandler_shape
    (alertsHttp : QueryParams → Except JsError (NPSResponse AlertRecord))
    (toLocaleDateString : String → String) (args : GetAlertsArgs) :
    (∃ e calls, getAlertsHandler alertsHttp toLocaleDateString args = (.error e, calls)) ∨
    (∃ v calls, getAlertsHandler alertsHttp toLocaleDateString args =
      (.ok (textResponse v (some 2)), calls)) := by
  unfold getAlertsHandler
  dsimp only
  repeat' split
  all_goals first
    | exact Or.inl ⟨_, _, rfl⟩
    | exact Or.inr ⟨_, _, rfl⟩

/-- Every dispatch outcome is a thrown error, a pretty-printed single text
response, or the compact invalid-state-code envelope. -/
theorem dispatch_shape
    (parksHttp : QueryParams → Except JsError (NPSResponse ParkRecord))
    (alertsHttp : QueryParams → Except JsError (NPSResponse AlertRecord))
    (toLocaleDateString : String → String) (req : CallToolRequest) :
    (∃ e calls, dispatch parksHttp alertsHttp toLocaleDateString req = (.error e, calls)) ∨
    (∃ v calls, dispatch parksHttp alertsHttp toLocaleDateString req =
      (.ok (textResponse v (some 2)), calls)) ∨
    (∃ s, dispatch parksHttp alertsHttp toLocaleDateString req = (.ok (textResponse (JsonValue.obj
      [("error", JsonValue.str ("Invalid state code(s): " ++
          String.intercalate ", " (invalidStatesOf s))),
       ("validStateCodes", JsonValue.arr (STATE_CODES.map JsonValue.str))]) none), [])) := by
  unfold dispatch
  split
  · exact Or.inl ⟨_, _, rfl⟩
  · split
    · split
      · exact Or.inl ⟨_, _, rfl⟩
      · rename_i args heq
        exact findParksHandler_shape parksHttp args
    · split
      · split
        · exact Or.inl ⟨_, _, rfl⟩
        · rename_i args heq
          rcases getParkDetailsHandler_shape parksHttp args with h | h
          · exact Or.inl h
          · exact Or.inr (Or.inl h)
      · split
        · split
          · exact Or.inl ⟨_, _, rfl⟩
          · rename_i args heq
            rcases getAlertsHandler_shape alertsHttp toLocaleDateString args with h | h
            · exact Or.inl h
            · exact Or.inr (Or.inl h)
        · exact Or.inl ⟨_, _, rfl⟩

/-- Claim C4 counterexample: the findParks invocation with the invalid state
code "XX" is serviced normally, but its single text block is serialized
WITHOUT the 2-space indent (the source calls JSON.stringify with no indent
argument on this path), so not every response is pretty-printed. -/
theorem C4_counterexample_compact_envelope :
    ((handleCallTool stubParksHttp stubAlertsHttp id
        { name := "findParks",
          arguments := some (JsonValue.obj [("stateCode", JsonValue.str "XX")]) }).1.content.all
      (fun c => c.indent == some 2)) = false := rfl

/-- Claim C4 (amended): every serviced invocation — schema failure, missing
arguments, unknown tool, gateway error, or success — returns a normal
response whose content is one text block holding a JSON-serialized result or
ErrorEnvelope; the block carries the 2-space indent except on the
invalid-state-code envelope of findParks, which is serialized compactly; no
exception crosses the boundary, and an unknown tool name yields the generic
Server error envelope. -/
theorem C4_amended_response_shape
    (parksHttp : QueryParams → Except JsError (NPSResponse ParkRecord))
    (alertsHttp : QueryParams → Except JsError (NPSResponse AlertRecord))
    (toLocaleDateString : String → String) (req : CallToolRequest) :
    (∃ c : TextContent,
      (handleCallTool parksHttp alertsHttp toLocaleDateString req).1.content = [c] ∧
      c.type = "text" ∧
      (c.indent = some 2 ∨ (c.indent = none ∧ ∃ s, c.val = JsonValue.obj
        [("error", JsonValue.str ("Invalid state code(s): " ++
            String.intercalate ", " (invalidStatesOf s))),
         ("validStateCodes", JsonValue.arr (STATE_CODES.map JsonValue.str))]))) ∧
    (∀ rawArgs, req.arguments = some rawArgs →
      req.name ≠ "findParks" → req.name ≠ "getParkDetails" → req.name ≠ "getAlerts" →
      (handleCallTool parksHttp alertsHttp toLocaleDateString req).1 =
        textResponse (JsonValue.obj
          [("error", JsonValue.str "Server error"),
           ("message", JsonValue.str ("Unknown tool: " ++ req.name))]) (some 2)) := by
  constructor
  · rcases dispatch_shape parksHttp alertsHttp toLocaleDateString req with
      ⟨e, calls, hd⟩ | ⟨v, calls, hd⟩ | ⟨s, hd⟩
    · cases e with
      | zodError details =>
        exact ⟨{ type := "text",
                 val := JsonValue.obj
                   [("error", JsonValue.str "Validation error"), ("details", details)],
                 indent := some 2 },
          by simp [handleCallTool, hd, textResponse], rfl, Or.inl rfl⟩
      | error msg =>
        exact ⟨{ type := "text",
                 val := JsonValue.obj
                   [("error", JsonValue.str "Server error"), ("message", JsonValue.str msg)],
                 indent := some 2 },
          by simp [handleCallTool, hd, textResponse], rfl, Or.inl rfl⟩
      | other =>
        exact ⟨{ type := "text",
                 val := JsonValue.obj
                   [("error", JsonValue.str "Server error"),
                    ("message", JsonValue.str "Unknown error")],
                 indent := some 2 },
          by simp [handleCallTool, hd, textResponse], rfl, Or.inl rfl⟩
    · exact ⟨{ type := "text", val := v, indent := some 2 },
        by simp [handleCallTool, hd, textResponse], rfl, Or.inl rfl⟩
    · exact ⟨{ type := "text",
               val := JsonValue.obj
                 [("error", JsonValue.str ("Invalid state code(s): " ++
                     String.intercalate ", " (invalidStatesOf s))),
                  ("validStateCodes", JsonValue.arr (STATE_CODES.map JsonValue.str))],
               indent := none },
        by simp [handleCallTool, hd, textResponse], rfl, Or.inr ⟨rfl, s, rfl⟩⟩
  · intro rawArgs hra h1 h2 h3
    have hd : dispatch parksHttp alertsHttp toLocaleDateString req =
        (.error (.error ("Unknown tool: " ++ req.name)), []) := by
      unfold dispatch
      rw [hra]
      simp [h1, h2, h3]
    simp [handleCallTool, hd, textResponse]

/-- Claim C4 witness: an unknown tool name produces the generic Server error
envelope (pretty-printed, single text block). -/
theorem C4_witness :
    (handleCallTool stubParksHttp stubAlertsHttp id
        { name := "listTools", arguments := some (JsonValue.obj []) }).1 =
      textResponse (JsonValue.obj
        [("error", JsonValue.str "Server error"),
         ("message", JsonValue.str ("Unknown tool: " ++ "listTools"))]) (some 2) :=
  (C4_amended_response_shape stubParksHttp stubAlertsHttp id
      { name := "listTools", arguments := some (JsonValue.obj []) }).2
    (JsonValue.obj []) rfl (by decide) (by decide) (by decide)
